import Mathlib

/-!
Verification development for a Go implementation of the Model Context
Protocol (MCP): a JSON-RPC 2.0 correlation engine, an MCP server registry
with paginated listing, and HTTP/SSE/stdio transports.

The Go source is shallowly embedded: pure fragments become Lean functions,
Go maps become association lists (with `Nodup` key hypotheses standing for
the map's key uniqueness), Go strings become Lean `String`s (the byte-level
base64 codec is faithful for strings whose characters are single bytes,
which is recorded as an explicit hypothesis where it matters), and the
outcome of each concurrency suspension point (a `select` over channels)
becomes an explicit input of the embedded function.
-/

namespace Mcp

/-! ### Base64 (Go `encoding/base64` StdEncoding, padded)

`base64.StdEncoding.EncodeToString` / `DecodeString` as used by the list
handlers in `server.go` to encode and decode pagination cursors. Bytes are
modelled as `Nat` (meaningful when `< 256`). -/

def base64Chars : List Char :=
  "ABCDEFGHIJKLMNOPQRSTUVWXYZabcdefghijklmnopqrstuvwxyz0123456789+/".data

/-- Character of a six-bit group. -/
def encSextet (n : Nat) : Char := base64Chars.getD n 'A'

/-- Value of a base64 alphabet character; `none` for characters outside the
alphabet (Go reports `CorruptInputError`). -/
def decSextet (c : Char) : Option Nat :=
  let i := base64Chars.indexOf c
  if i < 64 then some i else none

/-- Encode a byte sequence, three bytes to four characters, with `=` padding
exactly as Go's `StdEncoding`. -/
def b64EncodeBytes : List Nat → List Char
  | [] => []
  | [b1] => [encSextet (b1 / 4), encSextet (b1 % 4 * 16), '=', '=']
  | [b1, b2] =>
      [encSextet (b1 / 4), encSextet (b1 % 4 * 16 + b2 / 16),
       encSextet (b2 % 16 * 4), '=']
  | b1 :: b2 :: b3 :: rest =>
      encSextet (b1 / 4) :: encSextet (b1 % 4 * 16 + b2 / 16) ::
      encSextet (b2 % 16 * 4 + b3 / 64) :: encSextet (b3 % 64) ::
      b64EncodeBytes rest

/-- Decode a padded base64 character sequence; `none` models Go's
`CorruptInputError` (bad length, bad character, or misplaced padding). -/
def b64DecodeBytes : List Char → Option (List Nat)
  | [] => some []
  | c1 :: c2 :: c3 :: c4 :: rest =>
      match decSextet c1, decSextet c2 with
      | some s1, some s2 =>
          if c3 = '=' then
            if c4 = '=' ∧ rest = [] then some [s1 * 4 + s2 / 16] else none
          else
            match decSextet c3 with
            | some s3 =>
                if c4 = '=' then
                  if rest = [] then
                    some [s1 * 4 + s2 / 16, s2 % 16 * 16 + s3 / 4]
                  else none
                else
                  match decSextet c4 with
                  | some s4 =>
                      (b64DecodeBytes rest).map
                        (fun bs => (s1 * 4 + s2 / 16) :: (s2 % 16 * 16 + s3 / 4) ::
                                   (s3 % 4 * 64 + s4) :: bs)
                  | none => none
            | none => none
      | _, _ => none
  | _ => none

/-- String-level encode: the Go source calls
`base64.StdEncoding.EncodeToString([]byte(s))`. -/
def base64Encode (s : String) : String :=
  ⟨b64EncodeBytes (s.data.map Char.toNat)⟩

/-- String-level decode: `base64.StdEncoding.DecodeString` followed by
`string(decoded)`. -/
def base64Decode (s : String) : Option String :=
  (b64DecodeBytes s.data).map (fun bs => ⟨bs.map Char.ofNat⟩)

theorem decSextet_encSextet : ∀ n, n < 64 → decSextet (encSextet n) = some n := by
  decide

theorem encSextet_ne_pad : ∀ n, n < 64 → encSextet n ≠ '=' := by
  decide

theorem b64EncodeBytes_roundtrip :
    ∀ bs : List Nat, (∀ b ∈ bs, b < 256) →
      b64DecodeBytes (b64EncodeBytes bs) = some bs := by
  intro bs
  induction bs using b64EncodeBytes.induct with
  | case1 =>
      intro _; simp [b64EncodeBytes, b64DecodeBytes]
  | case2 b1 =>
      intro h
      have hb1 : b1 < 256 := h b1 (by simp)
      have h1 : b1 / 4 < 64 := by omega
      have h2 : b1 % 4 * 16 < 64 := by omega
      simp [b64EncodeBytes, b64DecodeBytes,
        decSextet_encSextet _ h1, decSextet_encSextet _ h2]
      omega
  | case3 b1 b2 =>
      intro h
      have hb1 : b1 < 256 := h b1 (by simp)
      have hb2 : b2 < 256 := h b2 (by simp)
      have h1 : b1 / 4 < 64 := by omega
      have h2 : b1 % 4 * 16 + b2 / 16 < 64 := by omega
      have h3 : b2 % 16 * 4 < 64 := by omega
      simp [b64EncodeBytes, b64DecodeBytes,
        decSextet_encSextet _ h1, decSextet_encSextet _ h2,
        decSextet_encSextet _ h3, encSextet_ne_pad _ h3]
      exact ⟨by omega, by omega⟩
  | case4 b1 b2 b3 rest ih =>
      intro h
      have hb1 : b1 < 256 := h b1 (by simp)
      have hb2 : b2 < 256 := h b2 (by simp)
      have hb3 : b3 < 256 := h b3 (by simp)
      have h1 : b1 / 4 < 64 := by omega
      have h2 : b1 % 4 * 16 + b2 / 16 < 64 := by omega
      have h3 : b2 % 16 * 4 + b3 / 64 < 64 := by omega
      have h4 : b3 % 64 < 64 := by omega
      have hrest : ∀ b ∈ rest, b < 256 := by
        intro b hb; exact h b (by simp [hb])
      simp [b64EncodeBytes, b64DecodeBytes,
        decSextet_encSextet _ h1, decSextet_encSextet _ h2,
        decSextet_encSextet _ h3, decSextet_encSextet _ h4,
        encSextet_ne_pad _ h3, encSextet_ne_pad _ h4, ih hrest]
      exact ⟨by omega, by omega, by omega⟩

theorem map_ofNat_toNat (cs : List Char) :
    cs.map (fun c => Char.ofNat c.toNat) = cs := by
  induction cs with
  | nil => rfl
  | cons c cs ih => simp [ih]

theorem base64_roundtrip (s : String) (h : ∀ c ∈ s.data, c.toNat < 256) :
    base64Decode (base64Encode s) = some s := by
  unfold base64Encode base64Decode
  rw [b64EncodeBytes_roundtrip]
  · simp only [Option.map_some', List.map_map]
    congr 1
    cases s with
    | mk data =>
        have hmap : List.map (Char.ofNat ∘ Char.toNat) data = data := by
          clear h
          induction data with
          | nil => rfl
          | cons c cs ih => simp [ih]
        exact congrArg String.mk hmap
  · intro b hb
    simp only [List.mem_map] at hb
    obtain ⟨c, hc, rfl⟩ := hb
    exact h c hc

theorem b64EncodeBytes_ne_nil (bs : List Nat) (h : bs ≠ []) :
    b64EncodeBytes bs ≠ [] := by
  match bs with
  | [] => exact absurd rfl h
  | [b1] => simp [b64EncodeBytes]
  | [b1, b2] => simp [b64EncodeBytes]
  | b1 :: b2 :: b3 :: rest => simp [b64EncodeBytes]

theorem base64Encode_ne_empty (s : String) (h : s ≠ "") :
    base64Encode s ≠ "" := by
  unfold base64Encode
  intro hc
  apply b64EncodeBytes_ne_nil (s.data.map Char.toNat)
  · simp only [ne_eq, List.map_eq_nil_iff]
    intro hd
    apply h
    cases s with
    | mk data => cases hd; rfl
  · have : (⟨b64EncodeBytes (s.data.map Char.toNat)⟩ : String).data = ("" : String).data := by
      rw [hc]
    exact this

/-! ### JSON values and the JSON-RPC envelope

`JValue` stands for a parsed Go `interface{}` holding JSON data
(`encoding/json` with generic unmarshalling). `Message` is
`types.BaseJSONRPCMessage`: `jsonrpc`, polymorphic `ID` (nil, number or
string), `method`, raw `params`, raw `result`, `error`. A `nil` raw field is
`none`; in the model raw JSON is kept parsed, since every claim involves
only well-formed JSON, and `json.Marshal` of a model value is the identity
on `JValue`. -/

inductive JValue where
  | null
  | bool (b : Bool)
  | num (n : Int)
  | str (s : String)
  | arr (elems : List JValue)
  | obj (fields : List (String × JValue))

/-- Lookup in a JSON object: Go `m["k"]` on `map[string]interface{}`. -/
def jlookup (fields : List (String × JValue)) (k : String) : Option JValue :=
  (fields.find? (fun p => p.fst == k)).map (·.snd)

/-- JSON-RPC identifier: Go's `interface{}` id, restricted to the two wire
kinds (an absent id is `Option.none` at the `Message` level). -/
inductive RpcId where
  | num (n : Int)
  | str (s : String)
deriving DecidableEq, Repr

/-- `types.RPCError`. -/
structure RpcError where
  code : Int
  message : String
  data : Option JValue

/-- `types.BaseJSONRPCMessage`. -/
structure Message where
  jsonrpc : String
  id : Option RpcId
  method : String
  params : Option JValue
  result : Option JValue
  error : Option RpcError

/-! ### MCP payload types (`types` package), restricted to listed fields -/

/-- `types.Content` (fields `type`, `text`, `data`, `mimeType`). -/
structure Content where
  type : String
  text : Option String
  data : Option String
  mimeType : Option String

/-- `types.ToolResponse`. -/
structure ToolResponse where
  content : List Content
  isError : Bool

/-- `types.Tool` as listed by `tools/list` (`inputSchema` kept as JSON). -/
structure Tool where
  name : String
  description : Option String
  inputSchema : JValue

/-- `types.PromptArgument`. -/
structure PromptArgument where
  name : String
  description : Option String
  required : Option Bool

/-- `types.Prompt` as listed by `prompts/list`. -/
structure Prompt where
  name : String
  description : Option String
  arguments : List PromptArgument

/-- `types.Resource` as listed by `resources/list`. -/
structure Resource where
  uri : String
  name : String
  description : Option String
  mimeType : Option String

/-- `types.PromptMessage`. -/
structure PromptMessage where
  role : String
  content : Content

/-- `types.PromptResponse`. -/
structure PromptResponse where
  description : Option String
  messages : List PromptMessage

/-- `types.ResourceContent`. -/
structure ResourceContent where
  uri : String
  mimeType : Option String
  text : Option String
  blob : Option String

/-- `types.ResourceResponse`. -/
structure ResourceResponse where
  contents : List ResourceContent

/-- `types.ServerInfo`. -/
structure ServerInfo where
  name : String
  version : String
deriving DecidableEq

/-- `types.ToolsCapability`. -/
structure ToolsCapability where
  listChanged : Option Bool
deriving DecidableEq

/-- `types.PromptsCapability`. -/
structure PromptsCapability where
  listChanged : Option Bool
deriving DecidableEq

/-- `types.ResourcesCapability`. -/
structure ResourcesCapability where
  subscribe : Option Bool
  listChanged : Option Bool
deriving DecidableEq

/-- `types.ServerCapabilities` (`logging` omitted: never set by the server). -/
structure ServerCapabilities where
  tools : Option ToolsCapability
  prompts : Option PromptsCapability
  resources : Option ResourcesCapability
deriving DecidableEq

/-- `types.InitializeResponse`. -/
structure InitializeResponse where
  protocolVersion : String
  capabilities : ServerCapabilities
  serverInfo : ServerInfo
  instructions : Option String
deriving DecidableEq

/-! ### JSON serialization (Go `json.Marshal` with the source's struct tags) -/

/-- Marshal a `Content` (tags: `type`, then `text,omitempty`, `data,omitempty`,
`mimeType,omitempty`). -/
def contentToJson (c : Content) : JValue :=
  JValue.obj ([("type", JValue.str c.type)]
    ++ (match c.text with | some t => [("text", JValue.str t)] | none => [])
    ++ (match c.data with | some d => [("data", JValue.str d)] | none => [])
    ++ (match c.mimeType with | some m => [("mimeType", JValue.str m)] | none => []))

/-- Marshal a `ToolResponse` (tags: `content`, `isError,omitempty`; a false
`isError` is omitted). -/
def toolResponseToJson (r : ToolResponse) : JValue :=
  JValue.obj ([("content", JValue.arr (r.content.map contentToJson))]
    ++ (if r.isError then [("isError", JValue.bool true)] else []))

/-- Marshal a `PromptResponse` (tags: `description,omitempty`, `messages`). -/
def promptResponseToJson (r : PromptResponse) : JValue :=
  JValue.obj ((match r.description with
      | some d => [("description", JValue.str d)] | none => [])
    ++ [("messages", JValue.arr (r.messages.map (fun m =>
          JValue.obj [("role", JValue.str m.role), ("content", contentToJson m.content)])))])

/-- Marshal a `ResourceResponse` (tags: `contents`). -/
def resourceResponseToJson (r : ResourceResponse) : JValue :=
  JValue.obj [("contents", JValue.arr (r.contents.map (fun c =>
    JValue.obj ([("uri", JValue.str c.uri)]
      ++ (match c.mimeType with | some m => [("mimeType", JValue.str m)] | none => [])
      ++ (match c.text with | some t => [("text", JValue.str t)] | none => [])
      ++ (match c.blob with | some b => [("blob", JValue.str b)] | none => [])))))]

/-- Marshal an `InitializeResponse`. -/
def initializeResponseToJson (r : InitializeResponse) : JValue :=
  JValue.obj ([("protocolVersion", JValue.str r.protocolVersion),
    ("capabilities", JValue.obj
      ((match r.capabilities.tools with
        | some c => [("tools", JValue.obj (match c.listChanged with
            | some b => [("listChanged", JValue.bool b)] | none => []))]
        | none => [])
      ++ (match r.capabilities.prompts with
        | some c => [("prompts", JValue.obj (match c.listChanged with
            | some b => [("listChanged", JValue.bool b)] | none => []))]
        | none => [])
      ++ (match r.capabilities.resources with
        | some c => [("resources", JValue.obj
            ((match c.subscribe with
              | some b => [("subscribe", JValue.bool b)] | none => [])
            ++ (match c.listChanged with
              | some b => [("listChanged", JValue.bool b)] | none => [])))]
        | none => []))),
    ("serverInfo", JValue.obj [("name", JValue.str r.serverInfo.name),
      ("version", JValue.str r.serverInfo.version)])]
    ++ (match r.instructions with
      | some i => [("instructions", JValue.str i)] | none => []))

/-! ### MCP server registry (`server.go`)

Go's runtime-reflective handlers become type-erased records: `isFunc` is
the outcome of the `reflect.TypeOf(handler).Kind() == reflect.Func` check,
`schema` the outcome of `GenerateSchema` (`none` = generation error), and
`call` folds `callToolHandler`'s marshal/unmarshal/invoke of the arguments
into one JSON-in function, as §9 of the design suggests for a statically
typed host. Registries are the entry lists of the Go maps; a map's key
uniqueness appears in theorems as a `Nodup` hypothesis. -/

structure ToolHandler where
  isFunc : Bool
  schema : Option JValue
  call : JValue → Except String ToolResponse

structure PromptHandler where
  isFunc : Bool
  call : Option JValue → Except String PromptResponse

structure ResourceHandler where
  isFunc : Bool
  call : Unit → Except String ResourceResponse

/-- `registeredTool`. -/
structure RegisteredTool where
  name : String
  description : Option String
  handler : ToolHandler
  inputSchema : JValue

/-- `registeredPrompt`. -/
structure RegisteredPrompt where
  name : String
  description : Option String
  arguments : List PromptArgument
  handler : PromptHandler

/-- `registeredResource`. -/
structure RegisteredResource where
  uri : String
  name : String
  description : Option String
  mimeType : Option String
  handler : ResourceHandler

/-- `MCPServer` (its registry and configuration; the transport and protocol
objects live in the separate protocol model). -/
structure ServerState where
  info : ServerInfo
  paginationLimit : Nat
  started : Bool
  tools : List RegisteredTool
  prompts : List RegisteredPrompt
  resources : List RegisteredResource

/-- Go map lookup `s.tools[name]`. -/
def lookupTool (s : ServerState) (name : String) : Option RegisteredTool :=
  s.tools.find? (fun t => t.name == name)

/-- Go map lookup `s.prompts[name]`. -/
def lookupPrompt (s : ServerState) (name : String) : Option RegisteredPrompt :=
  s.prompts.find? (fun p => p.name == name)

/-- Go map lookup `s.resources[uri]`. -/
def lookupResource (s : ServerState) (uri : String) : Option RegisteredResource :=
  s.resources.find? (fun r => r.uri == uri)

/-- Go map insert `m[k] = v` on an entry list: replace the entry with the same
key, else append. -/
def upsertBy {α : Type} (key : α → String) (entries : List α) (e : α) : List α :=
  if entries.any (fun x => key x == key e) then
    entries.map (fun x => if key x == key e then e else x)
  else entries ++ [e]

/-- The id-less envelope built by `jsonRpcProtocol.Notification(method, nil)`. -/
def listChangedNotification (method : String) : Message :=
  { jsonrpc := "2.0", id := none, method := method,
    params := none, result := none, error := none }

/-- `sendToolsListChangedNotification`: emits the notification only when
`Serve` has set the started flag. -/
def sendToolsListChangedNotification (s : ServerState) : List Message :=
  if s.started then [listChangedNotification "notifications/tools/list_changed"]
  else []

/-- `sendPromptsListChangedNotification`. -/
def sendPromptsListChangedNotification (s : ServerState) : List Message :=
  if s.started then [listChangedNotification "notifications/prompts/list_changed"]
  else []

/-- `sendResourcesListChangedNotification`. -/
def sendResourcesListChangedNotification (s : ServerState) : List Message :=
  if s.started then [listChangedNotification "notifications/resources/list_changed"]
  else []

/-- `MCPServer.RegisterTool`: validate the handler is a function, derive the
schema, store the entry, then emit the change notification (result pairs the
new state with the messages the call emits). -/
def registerTool (s : ServerState) (name description : String)
    (handler : ToolHandler) : Except String (ServerState × List Message) :=
  if handler.isFunc = false then .error "handler must be a function"
  else match handler.schema with
    | none => .error "failed to generate schema"
    | some schema =>
        let entry : RegisteredTool :=
          { name := name, description := some description,
            handler := handler, inputSchema := schema }
        let s' := { s with tools := upsertBy RegisteredTool.name s.tools entry }
        .ok (s', sendToolsListChangedNotification s')

/-- `MCPServer.RegisterPrompt` (arguments list is left empty by the source). -/
def registerPrompt (s : ServerState) (name description : String)
    (handler : PromptHandler) : Except String (ServerState × List Message) :=
  if handler.isFunc = false then .error "handler must be a function"
  else
    let entry : RegisteredPrompt :=
      { name := name, description := some description,
        arguments := [], handler := handler }
    let s' := { s with prompts := upsertBy RegisteredPrompt.name s.prompts entry }
    .ok (s', sendPromptsListChangedNotification s')

/-- `MCPServer.RegisterResource`. -/
def registerResource (s : ServerState) (uri name description mimeType : String)
    (handler : ResourceHandler) : Except String (ServerState × List Message) :=
  if handler.isFunc = false then .error "handler must be a function"
  else
    let entry : RegisteredResource :=
      { uri := uri, name := name, description := some description,
        mimeType := some mimeType, handler := handler }
    let s' := { s with resources := upsertBy RegisteredResource.uri s.resources entry }
    .ok (s', sendResourcesListChangedNotification s')

/-- `MCPServer.DeregisterTool`: error when absent, else delete and notify. -/
def deregisterTool (s : ServerState) (name : String) :
    Except String (ServerState × List Message) :=
  if s.tools.any (fun t => t.name == name) then
    let s' := { s with tools := s.tools.filter (fun t => t.name != name) }
    .ok (s', sendToolsListChangedNotification s')
  else .error ("tool not found: " ++ name)

/-- `MCPServer.DeregisterPrompt`. -/
def deregisterPrompt (s : ServerState) (name : String) :
    Except String (ServerState × List Message) :=
  if s.prompts.any (fun p => p.name == name) then
    let s' := { s with prompts := s.prompts.filter (fun p => p.name != name) }
    .ok (s', sendPromptsListChangedNotification s')
  else .error ("prompt not found: " ++ name)

/-- `MCPServer.DeregisterResource`. -/
def deregisterResource (s : ServerState) (uri : String) :
    Except String (ServerState × List Message) :=
  if s.resources.any (fun r => r.uri == uri) then
    let s' := { s with resources := s.resources.filter (fun r => r.uri != uri) }
    .ok (s', sendResourcesListChangedNotification s')
  else .error ("resource not found: " ++ uri)

/-- `MCPServer.Serve`: connect the protocol to the transport (modelled
elsewhere) and set the started flag. -/
def serve (s : ServerState) : ServerState := { s with started := true }

/-- `NewServer`'s registry and flag initialization (the default pagination
limit is 10, overridable with `WithPaginationLimit`). -/
def newServerState (info : ServerInfo) (paginationLimit : Nat) : ServerState :=
  { info := info, paginationLimit := paginationLimit, started := false,
    tools := [], prompts := [], resources := [] }

/-! ### Paginated listing (`handleToolsList` / `handlePromptsList` /
`handleResourcesList`)

The three Go handlers are textually identical up to the entry type and the
primary key (name, name, URI); `listPaginated` is that common text, and each
handler is its instantiation. Go's byte-wise string comparison agrees with
Lean's `String` order on the (UTF-8) strings both sides exchange. -/

/-- Lexicographic comparison of character sequences (a shorter strict prefix
is smaller), mirroring Go's byte-wise `<` on strings. -/
def charsLt : List Char → List Char → Bool
  | [], [] => false
  | [], _ :: _ => true
  | _ :: _, [] => false
  | a :: as, b :: bs =>
      if a.toNat < b.toNat then true
      else if b.toNat < a.toNat then false
      else charsLt as bs

/-- Go's `a < b` on strings. -/
def strLt (a b : String) : Bool := charsLt a.data b.data

/-- Go's `a <= b` on strings (the reflexive closure handed to a sort). -/
def strLe (a b : String) : Bool := !(strLt b a)

theorem charsLt_irrefl : ∀ l : List Char, charsLt l l = false := by
  intro l
  induction l with
  | nil => rfl
  | cons a as ih => simp [charsLt, ih]

theorem charsLt_asymm : ∀ l1 l2 : List Char,
    charsLt l1 l2 = true → charsLt l2 l1 = false := by
  intro l1
  induction l1 with
  | nil =>
      intro l2 h
      cases l2 with
      | nil => simp [charsLt] at h
      | cons b bs => simp [charsLt]
  | cons a as ih =>
      intro l2 h
      cases l2 with
      | nil => simp [charsLt] at h
      | cons b bs =>
          by_cases h1 : a.toNat < b.toNat
          · simp [charsLt, h1, Nat.lt_asymm h1]
          · by_cases h2 : b.toNat < a.toNat
            · simp [charsLt, h1, h2] at h
            · have heq : ¬ b.toNat < a.toNat := h2
              simp only [charsLt, if_neg h1, if_neg h2] at h
              simp only [charsLt, if_neg h2, if_neg h1]
              exact ih bs h

theorem charsLt_trans : ∀ l1 l2 l3 : List Char,
    charsLt l1 l2 = true → charsLt l2 l3 = true → charsLt l1 l3 = true := by
  intro l1
  induction l1 with
  | nil =>
      intro l2 l3 h12 h23
      cases l3 with
      | nil =>
          cases l2 with
          | nil => simp [charsLt] at h12
          | cons b bs => simp [charsLt] at h23
      | cons c cs => simp [charsLt]
  | cons a as ih =>
      intro l2 l3 h12 h23
      cases l2 with
      | nil => simp [charsLt] at h12
      | cons b bs =>
          cases l3 with
          | nil => simp [charsLt] at h23
          | cons c cs =>
              simp only [charsLt] at h12 h23 ⊢
              by_cases hab : a.toNat < b.toNat
              · by_cases hbc : b.toNat < c.toNat
                · simp [show a.toNat < c.toNat by omega]
                · by_cases hcb : c.toNat < b.toNat
                  · simp [hbc, hcb] at h23
                  · simp [show a.toNat < c.toNat by omega]
              · by_cases hba : b.toNat < a.toNat
                · simp [hab, hba] at h12
                · by_cases hbc : b.toNat < c.toNat
                  · simp [show a.toNat < c.toNat by omega]
                  · by_cases hcb : c.toNat < b.toNat
                    · simp [hbc, hcb] at h23
                    · have hac1 : ¬ a.toNat < c.toNat := by omega
                      have hac2 : ¬ c.toNat < a.toNat := by omega
                      simp only [if_neg hab, if_neg hba] at h12
                      simp only [if_neg hbc, if_neg hcb] at h23
                      simp only [if_neg hac1, if_neg hac2]
                      exact ih bs cs h12 h23

theorem charsLt_connex : ∀ l1 l2 : List Char,
    charsLt l1 l2 = false → charsLt l2 l1 = false → l1 = l2 := by
  intro l1
  induction l1 with
  | nil =>
      intro l2 h12 _
      cases l2 with
      | nil => rfl
      | cons b bs => simp [charsLt] at h12
  | cons a as ih =>
      intro l2 h12 h21
      cases l2 with
      | nil => simp [charsLt] at h21
      | cons b bs =>
          by_cases hab : a.toNat < b.toNat
          · simp [charsLt, hab] at h12
          · by_cases hba : b.toNat < a.toNat
            · simp [charsLt, hba, hab] at h21
            · have hnat : a.toNat = b.toNat := by omega
              have ha : a = b := Char.ext (UInt32.toNat.inj hnat)
              subst ha
              simp only [charsLt, if_neg hab] at h12 h21
              rw [ih bs h12 h21]

theorem strLt_irrefl (a : String) : strLt a a = false := charsLt_irrefl _

theorem strLt_asymm {a b : String} (h : strLt a b = true) : strLt b a = false :=
  charsLt_asymm _ _ h

theorem strLt_trans {a b c : String} (h1 : strLt a b = true)
    (h2 : strLt b c = true) : strLt a c = true :=
  charsLt_trans _ _ _ h1 h2

theorem strLt_connex {a b : String} (h1 : strLt a b = false)
    (h2 : strLt b a = false) : a = b := by
  cases a with
  | mk da =>
      cases b with
      | mk db => exact congrArg String.mk (charsLt_connex da db h1 h2)

/-- The ordering passed to `sort.Slice` (as its reflexive closure, so that a
stable sort on it is available). -/
def keyLe {α : Type} (key : α → String) (a b : α) : Prop :=
  strLe (key a) (key b) = true

instance {α : Type} (key : α → String) : DecidableRel (keyLe key) :=
  fun a b => inferInstanceAs (Decidable (strLe (key a) (key b) = true))

instance {α : Type} (key : α → String) : IsTotal α (keyLe key) := by
  constructor
  intro a b
  unfold keyLe strLe
  by_cases h : strLt (key b) (key a) = true
  · right
    simp [strLt_asymm h]
  · left
    simp [Bool.not_eq_true] at h
    simp [h]

instance {α : Type} (key : α → String) : IsTrans α (keyLe key) := by
  constructor
  intro a b c h1 h2
  unfold keyLe strLe at h1 h2 ⊢
  simp only [Bool.not_eq_true'] at h1 h2 ⊢
  cases hca : strLt (key c) (key a) with
  | false => rfl
  | true =>
      cases hbc : strLt (key b) (key c) with
      | true => rw [strLt_trans hbc hca] at h1; exact h1
      | false =>
          have hbceq : key c = key b := strLt_connex h2 hbc
          rw [hbceq] at hca
          rw [hca] at h1
          exact h1

/-- Cursor extraction from `params` (lines 256–263 of `server.go`): `params`
must be a JSON object whose `"cursor"` field is a string; anything else
leaves the cursor unset. -/
def parseCursor (params : Option JValue) : Option String :=
  match params with
  | some (JValue.obj fields) =>
      match jlookup fields "cursor" with
      | some (JValue.str s) => some s
      | _ => none
  | _ => none

/-- The cursor scan (`for i, tool := range allTools { if tool.Name > lastItem
{ startIndex = i; break } }`): index of the first entry whose key is strictly
greater than `lastItem`. -/
def findFirstGreater {α : Type} (key : α → String) (lastItem : String) :
    List α → Option Nat
  | [] => none
  | t :: rest =>
      if strLt lastItem (key t) then some 0
      else (findFirstGreater key lastItem rest).map (· + 1)

/-- Start index resolution: no cursor, empty cursor, or undecodable cursor
leave `startIndex = 0`; otherwise scan for the first strictly-greater key
(`startIndex` also stays 0 when no key is greater). -/
def cursorStartIndex {α : Type} (key : α → String) (sorted : List α) :
    Option String → Nat
  | none => 0
  | some c =>
      if c = "" then 0
      else match base64Decode c with
        | none => 0
        | some lastItem => (findFirstGreater key lastItem sorted).getD 0

/-- A page of results: `Tools`/`Prompts`/`Resources` plus `NextCursor`. -/
structure PagedResult (α : Type) where
  items : List α
  nextCursor : Option String

/-- The slice and next-cursor computation following the start index: truncate
to the limit when more items remain and emit the base64 of the last returned
key, else return the rest with no cursor. -/
def pageAt {α : Type} (key : α → String) (sorted : List α) (limit startIndex : Nat) :
    PagedResult α :=
  if 0 < limit ∧ startIndex + limit < sorted.length then
    { items := (sorted.drop startIndex).take limit,
      nextCursor := (sorted.get? (startIndex + limit - 1)).map
        (fun t => base64Encode (key t)) }
  else
    { items := sorted.drop startIndex, nextCursor := none }

/-- The registry snapshot sorted by primary key (the `sort.Slice` step; with
distinct keys the stable sort on `<` and a sort on its reflexive closure
produce the same list). -/
def sortedView {α : Type} (key : α → String) (entries : List α) : List α :=
  List.insertionSort (keyLe key) entries

/-- The common text of the three list handlers: parse the cursor, snapshot
and sort the registry by primary key, resolve the start index, slice. -/
def listPaginated {α : Type} (key : α → String) (entries : List α)
    (limit : Nat) (params : Option JValue) : PagedResult α :=
  let sorted := sortedView key entries
  pageAt key sorted limit (cursorStartIndex key sorted (parseCursor params))

/-- The `Tool` view built by `handleToolsList`'s collect loop. -/
def toolsView (s : ServerState) : List Tool :=
  s.tools.map (fun t =>
    { name := t.name, description := t.description, inputSchema := t.inputSchema })

/-- The `Prompt` view built by `handlePromptsList`'s collect loop. -/
def promptsView (s : ServerState) : List Prompt :=
  s.prompts.map (fun p =>
    { name := p.name, description := p.description, arguments := p.arguments })

/-- The `Resource` view built by `handleResourcesList`'s collect loop. -/
def resourcesView (s : ServerState) : List Resource :=
  s.resources.map (fun r =>
    { uri := r.uri, name := r.name, description := r.description,
      mimeType := r.mimeType })

/-- `MCPServer.handleToolsList`. -/
def handleToolsList (s : ServerState) (params : Option JValue) : PagedResult Tool :=
  listPaginated Tool.name (toolsView s) s.paginationLimit params

/-- `MCPServer.handlePromptsList`. -/
def handlePromptsList (s : ServerState) (params : Option JValue) : PagedResult Prompt :=
  listPaginated Prompt.name (promptsView s) s.paginationLimit params

/-- `MCPServer.handleResourcesList`. -/
def handleResourcesList (s : ServerState) (params : Option JValue) :
    PagedResult Resource :=
  listPaginated Resource.uri (resourcesView s) s.paginationLimit params

/-- The params object a client sends to pass a cursor back. -/
def cursorParams : Option String → Option JValue
  | none => none
  | some c => some (JValue.obj [("cursor", JValue.str c)])

/-- Client-side iteration of a list endpoint: call, collect the returned
page, follow `nextCursor` until absent. `fuel` bounds the number of calls
(the iteration of a well-behaved endpoint stops on its own). -/
def paginateAll {α : Type} (key : α → String) (entries : List α) (limit : Nat)
    (cursor : Option String) : Nat → List (List α)
  | 0 => []
  | fuel + 1 =>
      let r := listPaginated key entries limit (cursorParams cursor)
      match r.nextCursor with
      | none => [r.items]
      | some c => r.items :: paginateAll key entries limit (some c) fuel

/-- Iterated `tools/list` batches. -/
def toolsListBatches (s : ServerState) (fuel : Nat) : List (List Tool) :=
  paginateAll Tool.name (toolsView s) s.paginationLimit none fuel

/-- Iterated `prompts/list` batches. -/
def promptsListBatches (s : ServerState) (fuel : Nat) : List (List Prompt) :=
  paginateAll Prompt.name (promptsView s) s.paginationLimit none fuel

/-- Iterated `resources/list` batches. -/
def resourcesListBatches (s : ServerState) (fuel : Nat) : List (List Resource) :=
  paginateAll Resource.uri (resourcesView s) s.paginationLimit none fuel

/-! ### Request dispatch (`server.go` handlers and
`jsonRpcProtocol.handleRequest`)

A Go request handler returns `(interface{}, error)`; the non-error value is
then `json.Marshal`ed by the correlation engine. In the model a handler
returns `Except String JValue` with the marshalling (total on model values)
already applied, so `Except.error e` is Go's non-nil `error` with message
`e`. -/

/-- `MCPServer.handleInitialize`: a constant response up to the configured
server info. -/
def handleInitialize (s : ServerState) (_params : Option JValue) : InitializeResponse :=
  { protocolVersion := "2024-11-05",
    capabilities :=
      { tools := some { listChanged := some true },
        prompts := some { listChanged := some true },
        resources := some { subscribe := some false, listChanged := some true } },
    serverInfo := s.info,
    instructions := none }

/-- The tail of `handleToolCall` after the registry hit: invoke
(`callToolHandler`), mapping a handler error to an `isError` tool response. -/
def toolCallOutcome (t : RegisteredTool) (arguments : JValue) : JValue :=
  match t.handler.call arguments with
  | .error e => toolResponseToJson
      { content := [{ type := "text", text := some ("Error: " ++ e),
                      data := none, mimeType := none }], isError := true }
  | .ok r => toolResponseToJson r

/-- `MCPServer.handleToolCall`: parse `name`, default a missing `arguments`
field to an empty object, look up the tool — a miss yields a successful
`isError` tool response, not a Go error. -/
def handleToolCall (s : ServerState) (params : Option JValue) :
    Except String JValue :=
  match params with
  | some (JValue.obj fields) =>
      match jlookup fields "name" with
      | some (JValue.str toolName) =>
          let arguments := (jlookup fields "arguments").getD (JValue.obj [])
          match lookupTool s toolName with
          | none => .ok (toolResponseToJson
              { content := [{ type := "text",
                              text := some ("Unknown tool: " ++ toolName),
                              data := none, mimeType := none }],
                isError := true })
          | some tool => .ok (toolCallOutcome tool arguments)
      | _ => .error "missing tool name"
  | _ => .error "invalid params type"

/-- `MCPServer.handlePromptsGet`: a missing prompt is a Go error (which the
engine converts to JSON-RPC −32603), not an `isError` response. -/
def handlePromptsGet (s : ServerState) (params : Option JValue) :
    Except String JValue :=
  match params with
  | some (JValue.obj fields) =>
      match jlookup fields "name" with
      | some (JValue.str promptName) =>
          let arguments := jlookup fields "arguments"
          match lookupPrompt s promptName with
          | none => .error ("unknown prompt: " ++ promptName)
          | some prompt =>
              match prompt.handler.call arguments with
              | .error e => .error ("error calling prompt handler: " ++ e)
              | .ok r => .ok (promptResponseToJson r)
      | _ => .error "missing prompt name"
  | _ => .error "invalid params type"

/-- `MCPServer.handleResourceRead`: a missing resource is a Go error. -/
def handleResourceRead (s : ServerState) (params : Option JValue) :
    Except String JValue :=
  match params with
  | some (JValue.obj fields) =>
      match jlookup fields "uri" with
      | some (JValue.str uri) =>
          match lookupResource s uri with
          | none => .error ("unknown resource: " ++ uri)
          | some resource =>
              match resource.handler.call () with
              | .error e => .error ("error calling resource handler: " ++ e)
              | .ok r => .ok (resourceResponseToJson r)
      | _ => .error "missing resource URI"
  | _ => .error "invalid params type"

/-- `MCPServer.handlePing`. -/
def handlePing (_s : ServerState) (_params : Option JValue) :
    Except String JValue := .ok (JValue.obj [])

/-- A list page marshalled under the given field name (`tools` / `prompts` /
`resources`) with `nextCursor,omitempty`. -/
def pageToJson {α : Type} (field : String) (toJson : α → JValue)
    (r : PagedResult α) : JValue :=
  JValue.obj ([(field, JValue.arr (r.items.map toJson))]
    ++ (match r.nextCursor with
      | some c => [("nextCursor", JValue.str c)] | none => []))

/-- Marshal a listed `Tool`. -/
def toolToJson (t : Tool) : JValue :=
  JValue.obj ([("name", JValue.str t.name)]
    ++ (match t.description with
      | some d => [("description", JValue.str d)] | none => [])
    ++ [("inputSchema", t.inputSchema)])

/-- Marshal a listed `Prompt`. -/
def promptToJson (p : Prompt) : JValue :=
  JValue.obj ([("name", JValue.str p.name)]
    ++ (match p.description with
      | some d => [("description", JValue.str d)] | none => [])
    ++ (match p.arguments with
      | [] => []
      | args => [("arguments", JValue.arr (args.map (fun a =>
          JValue.obj ([("name", JValue.str a.name)]
            ++ (match a.description with
              | some d => [("description", JValue.str d)] | none => [])
            ++ (match a.required with
              | some b => [("required", JValue.bool b)] | none => [])))))]))

/-- Marshal a listed `Resource`. -/
def resourceToJson (r : Resource) : JValue :=
  JValue.obj ([("uri", JValue.str r.uri), ("name", JValue.str r.name)]
    ++ (match r.description with
      | some d => [("description", JValue.str d)] | none => [])
    ++ (match r.mimeType with
      | some m => [("mimeType", JValue.str m)] | none => []))

/-- A protocol-level request handler (`protocol.RequestHandler`), with the
result marshalling folded in. -/
abbrev RequestHandler := Option JValue → Except String JValue

/-- The eight handlers `NewServer` registers on the protocol. -/
def serverRequestHandlers (s : ServerState) : List (String × RequestHandler) :=
  [("initialize", fun p => .ok (initializeResponseToJson (handleInitialize s p))),
   ("tools/list", fun p => .ok (pageToJson "tools" toolToJson (handleToolsList s p))),
   ("tools/call", handleToolCall s),
   ("prompts/list", fun p => .ok (pageToJson "prompts" promptToJson (handlePromptsList s p))),
   ("prompts/get", handlePromptsGet s),
   ("resources/list", fun p => .ok (pageToJson "resources" resourceToJson (handleResourcesList s p))),
   ("resources/read", handleResourceRead s),
   ("ping", handlePing s)]

/-- `jsonRpcProtocol.handleRequest`: dispatch by method and build the
response envelope — −32601 when no handler is registered, −32603 carrying
the handler's message when it errs, else the marshalled result. (The −32602
branch needs an unparseable raw `params` and cannot arise on the model's
already-parsed values.) -/
def handleRequest (handlers : List (String × RequestHandler)) (msg : Message) :
    Message :=
  match (handlers.find? (fun h => h.fst == msg.method)).map (·.snd) with
  | none =>
      let e : RpcError :=
        { code := -32601, message := "Method not found",
          data := some (JValue.str
            ("No handler registered for method: " ++ msg.method)) }
      { jsonrpc := "2.0", id := msg.id, method := "",
        params := none, result := none, error := some e }
  | some h =>
      match h msg.params with
      | .error err =>
          let e : RpcError :=
            { code := -32603, message := "Internal error",
              data := some (JValue.str err) }
          { jsonrpc := "2.0", id := msg.id, method := "",
            params := none, result := none, error := some e }
      | .ok v =>
          { jsonrpc := "2.0", id := msg.id, method := "",
            params := none, result := some v, error := none }

/-- The MCP server's inbound request dispatch: `handleRequest` over the
handlers `NewServer` registered. -/
def serverHandleRequest (s : ServerState) (msg : Message) : Message :=
  handleRequest (serverRequestHandlers s) msg

/-! ### Correlation-engine lifecycle (`protocol.go`)

State of a `jsonRpcProtocol` relevant to shutdown: the attached transport
(with its closed flag) and the set of outstanding request ids in
`pendingRequests`.  `Connect` installs only the message handler on the
transport — no close handler — and `Close` merely forwards to
`transport.Close()`. -/

structure TransportModel where
  closed : Bool
  messageHandlerSet : Bool
  closeHandlerSet : Bool
deriving DecidableEq, Repr

structure ProtocolModel where
  transport : Option TransportModel
  pendingRequests : List Int
  requestID : Int
deriving DecidableEq, Repr

/-- `jsonRpcProtocol.Connect`: store the transport and set its message
handler (only); the transport's close handler is never installed. -/
def protocolConnect (p : ProtocolModel) (t : TransportModel) : ProtocolModel :=
  { p with transport := some { t with messageHandlerSet := true } }

/-- The registration a `Request` call performs before sending
(`p.pendingRequests[id] = responseChan`). -/
def protocolRegisterPending (p : ProtocolModel) (id : Int) : ProtocolModel :=
  { p with pendingRequests := p.pendingRequests ++ [id] }

/-- The deferred cleanup of a completed `Request`
(`delete(p.pendingRequests, id)`). -/
def protocolRemovePending (p : ProtocolModel) (id : Int) : ProtocolModel :=
  { p with pendingRequests := p.pendingRequests.filter (· ≠ id) }

/-- `jsonRpcProtocol.Close`: `return p.transport.Close()` — nothing else. -/
def protocolClose (p : ProtocolModel) : ProtocolModel :=
  match p.transport with
  | some t => { p with transport := some { t with closed := true } }
  | none => p

/-! ### Request/reply HTTP server transport (`httpServerTransport`)

The outcome of each channel `select` becomes an explicit argument: for
`ServeHTTP`, which of the response channel, the timeout timer, or the
request context fires first; for `Send`, whether the waiting exchange takes
the message, the exchange's context is cancelled, or the 5-second send
timer fires. -/

inductive WaitOutcome where
  | response (m : Message)
  | timeout
  | cancelled

inductive DeliverOutcome where
  | taken
  | ctxCancelled
  | timedOut
deriving DecidableEq, Repr

/-- What `Send` did with the message besides its return value. -/
inductive SendEffect where
  | delivered
  | dropped
  | nothing
deriving DecidableEq, Repr

/-- An HTTP reply: status code, optional envelope body, optional
`http.Error` text. -/
structure HttpReply where
  status : Nat
  body : Option Message
  errText : Option String

/-- `httpServerTransport.ServeHTTP`: reject non-POST; 400 on an undecodable
body; 500 with no registered message handler; notifications (no id) return
200 at once; requests wait on the correlated response — 200 with the
envelope, 408 `"Request timeout"` on timeout, and 408 `"Request cancelled"`
on client cancellation. -/
def serveHTTP (method : String) (decoded : Option Message)
    (handlerRegistered : Bool) (wait : WaitOutcome) : HttpReply :=
  if method ≠ "POST" then
    { status := 405, body := none, errText := some "Method not allowed" }
  else match decoded with
  | none => { status := 400, body := none, errText := some "Invalid request" }
  | some req =>
      if handlerRegistered = false then
        { status := 500, body := none,
          errText := some "No message handler registered" }
      else match req.id with
      | none => { status := 200, body := none, errText := none }
      | some _ =>
          match wait with
          | .response m => { status := 200, body := some m, errText := none }
          | .timeout =>
              { status := 408, body := none, errText := some "Request timeout" }
          | .cancelled =>
              { status := 408, body := none, errText := some "Request cancelled" }

/-- `httpServerTransport.Send`: error on a nil message; on a pending-table
miss, return nil and drop the message; on a hit, the `select` either hands
the message to the waiting exchange (nil), errs on the exchange's
cancellation, or errs after the 5-second ceiling. -/
def httpTransportSend (pending : List RpcId) (msg : Option Message)
    (deliver : DeliverOutcome) : Except String Unit × SendEffect :=
  match msg with
  | none => (.error "cannot send nil message", .nothing)
  | some m =>
      match m.id with
      | some i =>
          if i ∈ pending then
            match deliver with
            | .taken => (.ok (), .delivered)
            | .ctxCancelled => (.error "request context cancelled", .nothing)
            | .timedOut => (.error "timeout sending response", .nothing)
          else (.ok (), .dropped)
      | none => (.ok (), .dropped)

/-! ### SSE server middleware chaining (`sseServerTransport`)

`WithMiddleware` appends; `Start` composes with
`for i := len(mw)-1; i >= 0; i-- { handler = mw[i](handler) }`,
which is `List.foldr`: the FIRST element ends up outermost. -/

/-- `WithMiddleware`: append to the middleware slice. -/
def withMiddleware {H : Type} (current added : List (H → H)) : List (H → H) :=
  current ++ added

/-- The chaining loop in `Start`. -/
def chainMiddleware {H : Type} (middleware : List (H → H)) (base : H) : H :=
  middleware.foldr (fun m acc => m acc) base

/-- An observing middleware over trace handlers (`H := List String →
List String`, a handler mapping the trace of who has seen the request so
far to a response trace): it stamps `tag` on the request as it passes
through, so the outermost wrapper's tag comes first. -/
def tagMiddleware (tag : String) :
    (List String → List String) → (List String → List String) :=
  fun next req => next (req ++ [tag])

/-! ### Concrete fixtures (used by witnesses and counterexamples) -/

/-- A well-formed tool handler accepting any arguments. -/
def sampleToolHandler : ToolHandler :=
  { isFunc := true, schema := some (JValue.obj []),
    call := fun _ => .ok { content := [], isError := false } }

/-- A registered tool named `n`. -/
def mkTool (n : String) : RegisteredTool :=
  { name := n, description := some "d", handler := sampleToolHandler,
    inputSchema := JValue.obj [] }

/-- A registered prompt named `n`. -/
def mkPrompt (n : String) : RegisteredPrompt :=
  { name := n, description := some "d", arguments := [],
    handler := { isFunc := true,
                 call := fun _ => .ok { description := none, messages := [] } } }

/-- A registered resource at `u`. -/
def mkResource (u : String) : RegisteredResource :=
  { uri := u, name := u, description := some "d",
    mimeType := some "text/plain",
    handler := { isFunc := true, call := fun _ => .ok { contents := [] } } }

/-- A server populated with the given tool names, prompt names and resource
URIs. -/
def sampleServer (tools prompts resources : List String) (limit : Nat)
    (started : Bool) : ServerState :=
  { info := { name := "mcp-server", version := "0.1.0" },
    paginationLimit := limit, started := started,
    tools := tools.map mkTool, prompts := prompts.map mkPrompt,
    resources := resources.map mkResource }

/-- A request envelope with numeric id `n`. -/
def reqMsg (n : Int) (method : String) (params : Option JValue) : Message :=
  { jsonrpc := "2.0", id := some (RpcId.num n), method := method,
    params := params, result := none, error := none }

/-- A notification envelope (no id). -/
def notifMsg (method : String) : Message :=
  { jsonrpc := "2.0", id := none, method := method,
    params := none, result := none, error := none }

/-- A response envelope with numeric id `n` and an empty-object result. -/
def respMsg (n : Int) : Message :=
  { jsonrpc := "2.0", id := some (RpcId.num n), method := "",
    params := none, result := some (JValue.obj []), error := none }

/-- A `tools/call` request naming a tool. -/
def toolsCallMsg (id : RpcId) (name : String) : Message :=
  { jsonrpc := "2.0", id := some id, method := "tools/call",
    params := some (JValue.obj [("name", JValue.str name)]),
    result := none, error := none }

/-- A `prompts/get` request naming a prompt. -/
def promptsGetMsg (id : RpcId) (name : String) : Message :=
  { jsonrpc := "2.0", id := some id, method := "prompts/get",
    params := some (JValue.obj [("name", JValue.str name)]),
    result := none, error := none }

/-- A `resources/read` request naming a URI. -/
def resourcesReadMsg (id : RpcId) (uri : String) : Message :=
  { jsonrpc := "2.0", id := some id, method := "resources/read",
    params := some (JValue.obj [("uri", JValue.str uri)]),
    result := none, error := none }

/-! ## Claim theorems -/

/-- C1: the claim (and the comments on `WithMiddleware` and on `Start`'s
chaining loop) says the last middleware added is the outermost wrapper, so
it sees the request first. Evaluating the chaining loop on two tagging
middlewares shows the composed handler stamps the FIRST-added tag first:
`middleware[0]` is the outermost wrapper, contradicting the claim and the
code's own comments. -/
theorem c1_middleware_order_evaluation :
    chainMiddleware (withMiddleware []
        [tagMiddleware "first-added", tagMiddleware "last-added"]) id [] =
      ["first-added", "last-added"]
    ∧ ["first-added", "last-added"] ≠ ["last-added", "first-added"] := by
  exact ⟨rfl, by decide⟩

/-- C2 counterexample: closing the correlation engine with id 1 outstanding
leaves the pending-requests table holding id 1 — it is not drained and the
slot is not completed. -/
theorem c2_close_not_drained_counterexample :
    (protocolClose (protocolRegisterPending
        { transport := some { closed := false, messageHandlerSet := true,
                              closeHandlerSet := false },
          pendingRequests := [], requestID := 1 } 1)).pendingRequests = [1]
    ∧ ([1] : List Int) ≠ [] := by
  exact ⟨rfl, by decide⟩

/-- C2 (amended): `Close` only closes the underlying transport; the
pending-requests table is left untouched, and `Connect` never installs a
close handler that could drain it, so outstanding requests complete only via
a matching response or their caller's own context. -/
theorem c2_close_leaves_pending (p : ProtocolModel) (t t0 : TransportModel)
    (h : p.transport = some t) :
    (protocolClose p).pendingRequests = p.pendingRequests
    ∧ (protocolClose p).transport = some { t with closed := true }
    ∧ (protocolConnect p t0).transport = some { t0 with messageHandlerSet := true } := by
  refine ⟨?_, ?_, rfl⟩
  · simp [protocolClose, h]
  · simp [protocolClose, h]

/-- C2 witness: the amended statement at a concrete protocol state. -/
theorem c2_close_leaves_pending_witness :
    (protocolClose { transport := some { closed := false, messageHandlerSet := true,
                                         closeHandlerSet := false },
                     pendingRequests := [7], requestID := 7 }).pendingRequests = [7]
    ∧ (protocolClose { transport := some { closed := false, messageHandlerSet := true,
                                           closeHandlerSet := false },
                       pendingRequests := [7], requestID := 7 }).transport =
        some { closed := true, messageHandlerSet := true, closeHandlerSet := false }
    ∧ (protocolConnect { transport := some { closed := false, messageHandlerSet := true,
                                             closeHandlerSet := false },
                         pendingRequests := [7], requestID := 7 }
          { closed := false, messageHandlerSet := false, closeHandlerSet := false }).transport =
        some { closed := false, messageHandlerSet := true, closeHandlerSet := false } :=
  c2_close_leaves_pending _ _ _ rfl

/-- C8: `initialize` returns protocol version `"2024-11-05"`, the configured
server info, and capabilities advertising `listChanged: true` for tools,
prompts and resources, for every server state (the registries play no
part). -/
theorem c8_initialize_constant (s : ServerState) (params : Option JValue) :
    (handleInitialize s params).protocolVersion = "2024-11-05"
    ∧ (handleInitialize s params).serverInfo = s.info
    ∧ (handleInitialize s params).capabilities.tools =
        some { listChanged := some true }
    ∧ (handleInitialize s params).capabilities.prompts =
        some { listChanged := some true }
    ∧ (handleInitialize s params).capabilities.resources =
        some { subscribe := some false, listChanged := some true }
    ∧ (handleInitialize s params).instructions = none := by
  exact ⟨rfl, rfl, rfl, rfl, rfl, rfl⟩

/-- C9: `Send` on the request/reply HTTP server transport returns nil and
silently drops a non-nil message whose id matches no in-flight POST, and
also returns nil when a matching exchange takes the message — the two cases
are indistinguishable from the return value. -/
theorem c9_send_unmatched_dropped (pending pending2 : List RpcId)
    (m m2 : Message) (i i2 : RpcId) (d : DeliverOutcome)
    (hid : m.id = some i) (hmiss : i ∉ pending)
    (hid2 : m2.id = some i2) (hhit : i2 ∈ pending2) :
    httpTransportSend pending (some m) d = (.ok (), .dropped)
    ∧ httpTransportSend pending2 (some m2) .taken = (.ok (), .delivered)
    ∧ (httpTransportSend pending (some m) d).fst =
        (httpTransportSend pending2 (some m2) .taken).fst := by
  refine ⟨?_, ?_, ?_⟩ <;> simp [httpTransportSend, hid, hmiss, hid2, hhit]

/-- C9 witness: a response with id 5 sent while no such POST is pending is
dropped with a nil return; with such a POST pending it is delivered, also
with a nil return. -/
theorem c9_send_unmatched_dropped_witness :
    httpTransportSend [] (some (respMsg 5)) .taken = (.ok (), .dropped)
    ∧ httpTransportSend [RpcId.num 5] (some (respMsg 5)) .taken = (.ok (), .delivered)
    ∧ (httpTransportSend [] (some (respMsg 5)) .taken).fst =
      (httpTransportSend [RpcId.num 5] (some (respMsg 5)) .taken).fst :=
  c9_send_unmatched_dropped _ _ _ _ _ _ .taken rfl (by decide) rfl (by decide)

/-- C6 counterexample: when the client cancels a pending request, the
handler replies with status 408 (`http.StatusRequestTimeout`, body
`"Request cancelled"`), not any 499-equivalent status. -/
theorem c6_cancel_status_counterexample :
    (serveHTTP "POST" (some (reqMsg 1 "ping" none)) true WaitOutcome.cancelled).status = 408
    ∧ (408 : Nat) ≠ 499 := by
  exact ⟨rfl, by decide⟩

/-- C6 (amended): notifications return 200 immediately; a request returns
200 with the correlated envelope, 408 on timeout, 408 (not 499) with body
`"Request cancelled"` on client cancel, and 500 when no message handler is
registered. -/
theorem c6_http_statuses (nmsg rmsg resp : Message) (i : RpcId) (w : WaitOutcome)
    (hn : nmsg.id = none) (hr : rmsg.id = some i) :
    serveHTTP "POST" (some nmsg) true w =
      { status := 200, body := none, errText := none }
    ∧ serveHTTP "POST" (some rmsg) true (.response resp) =
        { status := 200, body := some resp, errText := none }
    ∧ serveHTTP "POST" (some rmsg) true .timeout =
        { status := 408, body := none, errText := some "Request timeout" }
    ∧ serveHTTP "POST" (some rmsg) true .cancelled =
        { status := 408, body := none, errText := some "Request cancelled" }
    ∧ serveHTTP "POST" (some rmsg) false w =
        { status := 500, body := none, errText := some "No message handler registered" }
    ∧ serveHTTP "POST" none true w =
        { status := 400, body := none, errText := some "Invalid request" } := by
  refine ⟨?_, ?_, ?_, ?_, ?_, ?_⟩ <;> simp [serveHTTP, hn, hr]

/-- C6 witness: the amended statuses at concrete envelopes. -/
theorem c6_http_statuses_witness :
    serveHTTP "POST" (some (notifMsg "note")) true .timeout =
      { status := 200, body := none, errText := none }
    ∧ serveHTTP "POST" (some (reqMsg 2 "ping" none)) true (.response (respMsg 2)) =
        { status := 200, body := some (respMsg 2), errText := none }
    ∧ serveHTTP "POST" (some (reqMsg 2 "ping" none)) true .timeout =
        { status := 408, body := none, errText := some "Request timeout" }
    ∧ serveHTTP "POST" (some (reqMsg 2 "ping" none)) true .cancelled =
        { status := 408, body := none, errText := some "Request cancelled" }
    ∧ serveHTTP "POST" (some (reqMsg 2 "ping" none)) false .timeout =
        { status := 500, body := none, errText := some "No message handler registered" }
    ∧ serveHTTP "POST" none true .timeout =
        { status := 400, body := none, errText := some "Invalid request" } :=
  c6_http_statuses _ _ _ (RpcId.num 2) .timeout rfl rfl

/-- C10: a `tools/call` whose params object has no `"arguments"` field runs
the tool on a substituted empty object, and a handler that accepts the empty
object (one whose argument record requires no fields) is invoked normally,
its response passed through rather than any error response. -/
theorem c10_missing_arguments_default (s : ServerState)
    (fields : List (String × JValue)) (name : String) (t : RegisteredTool)
    (r : ToolResponse)
    (hname : jlookup fields "name" = some (JValue.str name))
    (hargs : jlookup fields "arguments" = none)
    (htool : lookupTool s name = some t)
    (hcall : t.handler.call (JValue.obj []) = .ok r) :
    handleToolCall s (some (JValue.obj fields)) =
      .ok (toolCallOutcome t (JValue.obj []))
    ∧ toolCallOutcome t (JValue.obj []) = toolResponseToJson r := by
  constructor
  · simp [handleToolCall, hname, hargs, htool]
  · simp [toolCallOutcome, hcall]

/-- C5: an unknown tool on `tools/call` yields a successful JSON-RPC result
(no error envelope) whose tool response is one text content item
`"Unknown tool: {name}"` with `isError: true`; an unknown prompt on
`prompts/get` and an unknown URI on `resources/read` instead yield a
JSON-RPC error envelope with code −32603 and no result. -/
theorem c5_unknown_tool_vs_prompt_resource (s : ServerState)
    (nT nP uR : String) (idT idP idR : RpcId)
    (hT : lookupTool s nT = none)
    (hP : lookupPrompt s nP = none)
    (hR : lookupResource s uR = none) :
    (serverHandleRequest s (toolsCallMsg idT nT)).error = none
    ∧ (serverHandleRequest s (toolsCallMsg idT nT)).result =
        some (JValue.obj [("content", JValue.arr
          [JValue.obj [("type", JValue.str "text"),
            ("text", JValue.str ("Unknown tool: " ++ nT))]]),
          ("isError", JValue.bool true)])
    ∧ (serverHandleRequest s (toolsCallMsg idT nT)).id = some idT
    ∧ (serverHandleRequest s (promptsGetMsg idP nP)).result = none
    ∧ (serverHandleRequest s (promptsGetMsg idP nP)).error =
        some { code := -32603, message := "Internal error",
               data := some (JValue.str ("unknown prompt: " ++ nP)) }
    ∧ (serverHandleRequest s (promptsGetMsg idP nP)).id = some idP
    ∧ (serverHandleRequest s (resourcesReadMsg idR uR)).result = none
    ∧ (serverHandleRequest s (resourcesReadMsg idR uR)).error =
        some { code := -32603, message := "Internal error",
               data := some (JValue.str ("unknown resource: " ++ uR)) }
    ∧ (serverHandleRequest s (resourcesReadMsg idR uR)).id = some idR := by
  refine ⟨?_, ?_, ?_, ?_, ?_, ?_, ?_, ?_, ?_⟩ <;>
    simp [serverHandleRequest, handleRequest, serverRequestHandlers,
      toolsCallMsg, promptsGetMsg, resourcesReadMsg,
      handleToolCall, handlePromptsGet, handleResourceRead, jlookup,
      hT, hP, hR, toolResponseToJson, contentToJson]

/-- C5 witness: the statement at a concrete server missing tool `x`,
prompt `y` and resource `z`. -/
theorem c5_unknown_tool_vs_prompt_resource_witness :
    (serverHandleRequest (sampleServer ["t"] ["p"] ["r"] 10 true)
        (toolsCallMsg (RpcId.num 1) "x")).error = none
    ∧ (serverHandleRequest (sampleServer ["t"] ["p"] ["r"] 10 true)
        (toolsCallMsg (RpcId.num 1) "x")).result =
        some (JValue.obj [("content", JValue.arr
          [JValue.obj [("type", JValue.str "text"),
            ("text", JValue.str ("Unknown tool: " ++ "x"))]]),
          ("isError", JValue.bool true)])
    ∧ (serverHandleRequest (sampleServer ["t"] ["p"] ["r"] 10 true)
        (toolsCallMsg (RpcId.num 1) "x")).id = some (RpcId.num 1)
    ∧ (serverHandleRequest (sampleServer ["t"] ["p"] ["r"] 10 true)
        (promptsGetMsg (RpcId.num 2) "y")).result = none
    ∧ (serverHandleRequest (sampleServer ["t"] ["p"] ["r"] 10 true)
        (promptsGetMsg (RpcId.num 2) "y")).error =
        some { code := -32603, message := "Internal error",
               data := some (JValue.str ("unknown prompt: " ++ "y")) }
    ∧ (serverHandleRequest (sampleServer ["t"] ["p"] ["r"] 10 true)
        (promptsGetMsg (RpcId.num 2) "y")).id = some (RpcId.num 2)
    ∧ (serverHandleRequest (sampleServer ["t"] ["p"] ["r"] 10 true)
        (resourcesReadMsg (RpcId.num 3) "z")).result = none
    ∧ (serverHandleRequest (sampleServer ["t"] ["p"] ["r"] 10 true)
        (resourcesReadMsg (RpcId.num 3) "z")).error =
        some { code := -32603, message := "Internal error",
               data := some (JValue.str ("unknown resource: " ++ "z")) }
    ∧ (serverHandleRequest (sampleServer ["t"] ["p"] ["r"] 10 true)
        (resourcesReadMsg (RpcId.num 3) "z")).id = some (RpcId.num 3) :=
  c5_unknown_tool_vs_prompt_resource _ _ _ _ _ _ _ rfl rfl rfl

/-- C10 witness: a no-argument tool on a params object lacking
`"arguments"`. -/
theorem c10_missing_arguments_default_witness :
    handleToolCall (sampleServer ["noargs"] [] [] 10 true)
        (some (JValue.obj [("name", JValue.str "noargs")])) =
      .ok (toolCallOutcome (mkTool "noargs") (JValue.obj []))
    ∧ toolCallOutcome (mkTool "noargs") (JValue.obj []) =
        toolResponseToJson { content := [], isError := false } :=
  c10_missing_arguments_default _ _ _ _ _ rfl rfl rfl rfl

/-- C7: every successful register/deregister of a tool, prompt or resource
emits exactly the one matching `list_changed` notification when `Serve` has
set the started flag, and none before; `Serve` sets the flag and a new
server starts with it unset. -/
theorem c7_list_changed_gating (s : ServerState)
    (n1 d1 : String) (h1 : ToolHandler) (s1 : ServerState) (msgs1 : List Message)
    (n2 d2 : String) (h2 : PromptHandler) (s2 : ServerState) (msgs2 : List Message)
    (u3 n3 d3 m3 : String) (h3 : ResourceHandler) (s3 : ServerState) (msgs3 : List Message)
    (n4 n5 u6 : String) (s4 s5 s6 : ServerState)
    (msgs4 msgs5 msgs6 : List Message)
    (info : ServerInfo) (limit : Nat)
    (hreg1 : registerTool s n1 d1 h1 = .ok (s1, msgs1))
    (hreg2 : registerPrompt s n2 d2 h2 = .ok (s2, msgs2))
    (hreg3 : registerResource s u3 n3 d3 m3 h3 = .ok (s3, msgs3))
    (hder1 : deregisterTool s n4 = .ok (s4, msgs4))
    (hder2 : deregisterPrompt s n5 = .ok (s5, msgs5))
    (hder3 : deregisterResource s u6 = .ok (s6, msgs6)) :
    msgs1 = (if s.started then
      [listChangedNotification "notifications/tools/list_changed"] else [])
    ∧ msgs2 = (if s.started then
        [listChangedNotification "notifications/prompts/list_changed"] else [])
    ∧ msgs3 = (if s.started then
        [listChangedNotification "notifications/resources/list_changed"] else [])
    ∧ msgs4 = (if s.started then
        [listChangedNotification "notifications/tools/list_changed"] else [])
    ∧ msgs5 = (if s.started then
        [listChangedNotification "notifications/prompts/list_changed"] else [])
    ∧ msgs6 = (if s.started then
        [listChangedNotification "notifications/resources/list_changed"] else [])
    ∧ (serve s).started = true
    ∧ (newServerState info limit).started = false := by
  refine ⟨?_, ?_, ?_, ?_, ?_, ?_, rfl, rfl⟩
  · cases hf : h1.isFunc with
    | false => simp [registerTool, hf] at hreg1
    | true =>
        cases hsc : h1.schema with
        | none => simp [registerTool, hf, hsc] at hreg1
        | some sch =>
            simp [registerTool, hf, hsc] at hreg1
            simpa [sendToolsListChangedNotification] using hreg1.2.symm
  · cases hf : h2.isFunc with
    | false => simp [registerPrompt, hf] at hreg2
    | true =>
        simp [registerPrompt, hf] at hreg2
        simpa [sendPromptsListChangedNotification] using hreg2.2.symm
  · cases hf : h3.isFunc with
    | false => simp [registerResource, hf] at hreg3
    | true =>
        simp [registerResource, hf] at hreg3
        simpa [sendResourcesListChangedNotification] using hreg3.2.symm
  · cases hmem : s.tools.any (fun t => t.name == n4) with
    | false => simp [deregisterTool, hmem] at hder1
    | true =>
        simp [deregisterTool, hmem] at hder1
        simpa [sendToolsListChangedNotification] using hder1.2.symm
  · cases hmem : s.prompts.any (fun p => p.name == n5) with
    | false => simp [deregisterPrompt, hmem] at hder2
    | true =>
        simp [deregisterPrompt, hmem] at hder2
        simpa [sendPromptsListChangedNotification] using hder2.2.symm
  · cases hmem : s.resources.any (fun r => r.uri == u6) with
    | false => simp [deregisterResource, hmem] at hder3
    | true =>
        simp [deregisterResource, hmem] at hder3
        simpa [sendResourcesListChangedNotification] using hder3.2.symm

/-- C7 witness: all six mutations on a started concrete server. -/
theorem c7_list_changed_gating_witness :
    [listChangedNotification "notifications/tools/list_changed"] =
      (if (sampleServer ["t"] ["p"] ["r"] 10 true).started then
        [listChangedNotification "notifications/tools/list_changed"] else [])
    ∧ [listChangedNotification "notifications/prompts/list_changed"] =
        (if (sampleServer ["t"] ["p"] ["r"] 10 true).started then
          [listChangedNotification "notifications/prompts/list_changed"] else [])
    ∧ [listChangedNotification "notifications/resources/list_changed"] =
        (if (sampleServer ["t"] ["p"] ["r"] 10 true).started then
          [listChangedNotification "notifications/resources/list_changed"] else [])
    ∧ [listChangedNotification "notifications/tools/list_changed"] =
        (if (sampleServer ["t"] ["p"] ["r"] 10 true).started then
          [listChangedNotification "notifications/tools/list_changed"] else [])
    ∧ [listChangedNotification "notifications/prompts/list_changed"] =
        (if (sampleServer ["t"] ["p"] ["r"] 10 true).started then
          [listChangedNotification "notifications/prompts/list_changed"] else [])
    ∧ [listChangedNotification "notifications/resources/list_changed"] =
        (if (sampleServer ["t"] ["p"] ["r"] 10 true).started then
          [listChangedNotification "notifications/resources/list_changed"] else [])
    ∧ (serve (sampleServer ["t"] ["p"] ["r"] 10 true)).started = true
    ∧ (newServerState { name := "mcp-server", version := "0.1.0" } 10).started = false :=
  c7_list_changed_gating (sampleServer ["t"] ["p"] ["r"] 10 true)
    "x" "d" sampleToolHandler _ _
    "y" "d" (mkPrompt "y").handler _ _
    "z" "z" "d" "text/plain" (mkResource "z").handler _ _
    "t" "p" "r" _ _ _ _ _ _
    { name := "mcp-server", version := "0.1.0" } 10
    rfl rfl rfl rfl rfl rfl

/-! ### Pagination lemmas -/

/-- `listPaginated` unfolded. -/
theorem listPaginated_eq {α : Type} (key : α → String) (entries : List α)
    (limit : Nat) (params : Option JValue) :
    listPaginated key entries limit params =
      pageAt key (sortedView key entries) limit
        (cursorStartIndex key (sortedView key entries) (parseCursor params)) := rfl

/-- Extracting a cursor from the params object that passed it. -/
theorem parseCursor_cursorParams (c : Option String) :
    parseCursor (cursorParams c) = c := by
  cases c <;> rfl

/-- The sorted snapshot is strictly increasing on keys when the registry's
keys are distinct. -/
theorem sortedView_strict {α : Type} (key : α → String) (entries : List α)
    (hnd : (entries.map key).Nodup) :
    (sortedView key entries).Pairwise (fun a b => strLt (key a) (key b) = true) := by
  have hs : List.Sorted (keyLe key) (sortedView key entries) :=
    List.sorted_insertionSort _ _
  have hperm : List.Perm (sortedView key entries) entries :=
    List.perm_insertionSort _ _
  have hnd' : ((sortedView key entries).map key).Nodup :=
    hnd.perm (hperm.map key).symm
  have hne : (sortedView key entries).Pairwise (fun a b => key a ≠ key b) :=
    List.pairwise_map.mp hnd'
  refine (List.pairwise_and_iff.mpr ⟨hs, hne⟩).imp ?_
  intro a b h
  obtain ⟨h1, h2⟩ := h
  have h1' : strLt (key b) (key a) = false := by
    simpa [keyLe, strLe, Bool.not_eq_true'] using h1
  cases hab : strLt (key a) (key b) with
  | true => rfl
  | false => exact absurd (strLt_connex hab h1') h2

/-- In a strictly sorted list, the scan with the key of the item at `j`
finds index `j + 1` (the next batch starts right after the cursor's item),
provided such an index exists. -/
theorem findFirstGreater_at_index {α : Type} (key : α → String) (l : List α) :
    ∀ (j : Nat) (a : α),
      l.Pairwise (fun x y => strLt (key x) (key y) = true) →
      l.get? j = some a → j + 1 < l.length →
      findFirstGreater key (key a) l = some (j + 1) := by
  induction l with
  | nil => intro j a _ h _; simp at h
  | cons b rest ih =>
      intro j a hp h hlen
      cases j with
      | zero =>
          simp only [List.get?_cons_zero, Option.some.injEq] at h
          subst h
          have hnot : ¬ (strLt (key b) (key b) = true) := by
            simp [strLt_irrefl]
          simp only [findFirstGreater, if_neg hnot]
          cases rest with
          | nil => simp at hlen
          | cons c rest' =>
              have hbc : strLt (key b) (key c) = true :=
                (List.pairwise_cons.mp hp).1 c (by simp)
              simp only [findFirstGreater, if_pos hbc]
              rfl
      | succ j =>
          simp only [List.get?_cons_succ] at h
          have hmem : a ∈ rest := List.get?_mem h
          have hba : strLt (key b) (key a) = true :=
            (List.pairwise_cons.mp hp).1 a hmem
          have hnot : ¬ (strLt (key a) (key b) = true) := by
            simp [strLt_asymm hba]
          simp only [findFirstGreater, if_neg hnot]
          rw [ih j a (List.pairwise_cons.mp hp).2 h (by simpa using hlen)]
          rfl

/-- The scan returns nothing exactly when no key is strictly greater. -/
theorem findFirstGreater_none_iff {α : Type} (key : α → String) (k : String) :
    ∀ l : List α, findFirstGreater key k l = none ↔
      ∀ t ∈ l, strLt k (key t) = false := by
  intro l
  induction l with
  | nil => simp [findFirstGreater]
  | cons b rest ih =>
      by_cases hb : strLt k (key b) = true
      · have hL : findFirstGreater key k (b :: rest) = some 0 := by
          simp [findFirstGreater, hb]
        rw [hL]
        constructor
        · intro h; exact Option.noConfusion h
        · intro h
          have := h b (by simp)
          rw [hb] at this
          exact Bool.noConfusion this
      · have hb' : strLt k (key b) = false := by
          simpa [Bool.not_eq_true] using hb
        have hL : findFirstGreater key k (b :: rest) =
            (findFirstGreater key k rest).map (· + 1) := by
          simp [findFirstGreater, hb]
        rw [hL]
        constructor
        · intro h t ht
          rcases List.mem_cons.mp ht with rfl | hmem
          · exact hb'
          · exact (ih.mp (by simpa [Option.map_eq_none'] using h)) t hmem
        · intro h
          simp only [Option.map_eq_none']
          exact ih.mpr (fun t ht => h t (List.mem_cons_of_mem _ ht))

/-- When some key is strictly greater, the scan yields an index. -/
theorem findFirstGreater_some_of_exists {α : Type} (key : α → String)
    (k : String) (l : List α) (h : ∃ t ∈ l, strLt k (key t) = true) :
    ∃ i, findFirstGreater key k l = some i := by
  cases hf : findFirstGreater key k l with
  | some i => exact ⟨i, rfl⟩
  | none =>
      obtain ⟨t, ht, hlt⟩ := h
      have := ((findFirstGreater_none_iff key k) l).mp hf t ht
      rw [hlt] at this
      exact Bool.noConfusion this

/-- A found index is in range. -/
theorem findFirstGreater_lt_length {α : Type} (key : α → String) (k : String) :
    ∀ (l : List α) (i : Nat), findFirstGreater key k l = some i → i < l.length := by
  intro l
  induction l with
  | nil => intro i h; simp [findFirstGreater] at h
  | cons b rest ih =>
      intro i h
      by_cases hb : strLt k (key b) = true
      · simp only [findFirstGreater, if_pos hb, Option.some.injEq] at h
        subst h; simp
      · simp only [findFirstGreater, if_neg hb, Option.map_eq_some'] at h
        obtain ⟨j, hj, rfl⟩ := h
        have := ih j hj
        simp only [List.length_cons]
        omega

/-- Dropping at the found index of a strictly sorted list keeps exactly the
entries with strictly greater keys. -/
theorem drop_findFirstGreater {α : Type} (key : α → String) (k : String) :
    ∀ (l : List α) (i : Nat),
      l.Pairwise (fun x y => strLt (key x) (key y) = true) →
      findFirstGreater key k l = some i →
      l.drop i = l.filter (fun t => strLt k (key t)) := by
  intro l
  induction l with
  | nil => intro i _ h; simp [findFirstGreater] at h
  | cons b rest ih =>
      intro i hp hf
      by_cases hb : strLt k (key b) = true
      · simp only [findFirstGreater, if_pos hb, Option.some.injEq] at hf
        subst hf
        simp only [List.drop_zero]
        symm
        rw [List.filter_eq_self]
        intro a ha
        rcases List.mem_cons.mp ha with rfl | hmem
        · exact hb
        · exact strLt_trans hb ((List.pairwise_cons.mp hp).1 a hmem)
      · simp only [findFirstGreater, if_neg hb, Option.map_eq_some'] at hf
        obtain ⟨j, hj, rfl⟩ := hf
        have hd : strLt k (key b) = false := by
          simpa [Bool.not_eq_true] using hb
        have hfil : List.filter (fun t => strLt k (key t)) (b :: rest) =
            List.filter (fun t => strLt k (key t)) rest := by
          rw [List.filter_cons, hd]
          rfl
        rw [hfil, List.drop_succ_cons]
        exact ih j (List.pairwise_cons.mp hp).2 hj

/-- Iterating a list endpoint from the starting position resolved by a
cursor: the collected batches cover exactly the sorted suffix from that
position, in `max 1 ⌈(K − st)/N⌉` batches. Keys must be distinct (strict
sortedness), nonempty (a nonempty key round-trips to a nonempty cursor) and
single-byte (the byte-level base64 model is faithful there). -/
theorem paginateAll_from {α : Type} (key : α → String) (entries : List α)
    (limit : Nat) (hl : 0 < limit)
    (hst : (sortedView key entries).Pairwise (fun a b => strLt (key a) (key b) = true))
    (hbytes : ∀ a ∈ sortedView key entries, ∀ ch ∈ (key a).data, ch.toNat < 256)
    (hne : ∀ a ∈ sortedView key entries, key a ≠ "") :
    ∀ (fuel : Nat) (c : Option String) (st : Nat),
      cursorStartIndex key (sortedView key entries) c = st →
      st ≤ (sortedView key entries).length →
      (sortedView key entries).length - st + 1 ≤ fuel →
      (paginateAll key entries limit c fuel).flatten = (sortedView key entries).drop st
      ∧ (paginateAll key entries limit c fuel).length =
          max 1 (((sortedView key entries).length - st + limit - 1) / limit) := by
  intro fuel
  induction fuel with
  | zero => intro c st _ _ hf; omega
  | succ fuel ih =>
      intro c st hc hstle hf
      have hstep : listPaginated key entries limit (cursorParams c) =
          pageAt key (sortedView key entries) limit st := by
        rw [listPaginated_eq, parseCursor_cursorParams, hc]
      by_cases hcond : st + limit < (sortedView key entries).length
      · have hidx : st + limit - 1 < (sortedView key entries).length := by omega
        obtain ⟨a, ha⟩ : ∃ a, (sortedView key entries).get? (st + limit - 1) = some a := by
          rw [List.get?_eq_get hidx]
          exact ⟨_, rfl⟩
        have hpage : pageAt key (sortedView key entries) limit st =
            { items := ((sortedView key entries).drop st).take limit,
              nextCursor := some (base64Encode (key a)) } := by
          simp only [pageAt, if_pos (And.intro hl hcond), ha, Option.map_some']
        have hmem : a ∈ sortedView key entries := List.get?_mem ha
        have hnext : cursorStartIndex key (sortedView key entries)
            (some (base64Encode (key a))) = st + limit := by
          have h1 := base64Encode_ne_empty (key a) (hne a hmem)
          have h2 := base64_roundtrip (key a) (hbytes a hmem)
          have h3 := findFirstGreater_at_index key (sortedView key entries)
            (st + limit - 1) a hst ha (by omega)
          simp only [cursorStartIndex, if_neg h1, h2, h3, Option.getD_some]
          omega
        have hrec := ih (some (base64Encode (key a))) (st + limit) hnext
          (by omega) (by omega)
        constructor
        · simp only [paginateAll, hstep, hpage]
          simp only [List.flatten_cons]
          rw [hrec.1]
          have hdd : (sortedView key entries).drop (st + limit) =
              ((sortedView key entries).drop st).drop limit := by
            rw [List.drop_drop]
          rw [hdd, List.take_append_drop]
        · simp only [paginateAll, hstep, hpage]
          simp only [List.length_cons]
          rw [hrec.2]
          have hK : st + limit < (sortedView key entries).length := hcond
          have heq1 : (sortedView key entries).length - (st + limit) + limit - 1 =
              (sortedView key entries).length - st - 1 := by omega
          have heq2 : (sortedView key entries).length - st + limit - 1 =
              ((sortedView key entries).length - st - 1) + limit := by omega
          have hge : 1 ≤ ((sortedView key entries).length - st - 1) / limit :=
            (Nat.le_div_iff_mul_le hl).mpr (by omega)
          rw [heq1, heq2, Nat.add_div_right _ hl]
          omega
      · have hpage : pageAt key (sortedView key entries) limit st =
            { items := (sortedView key entries).drop st, nextCursor := none } := by
          have : ¬ (0 < limit ∧ st + limit < (sortedView key entries).length) :=
            fun h => hcond h.2
          simp [pageAt, this]
        constructor
        · simp only [paginateAll, hstep, hpage]
          simp
        · simp only [paginateAll, hstep, hpage]
          simp only [List.length_singleton]
          have hub : ((sortedView key entries).length - st + limit - 1) / limit ≤ 1 := by
            have hlt : (sortedView key entries).length - st + limit - 1 < 2 * limit := by
              omega
            have := (Nat.div_lt_iff_lt_mul hl).mpr hlt
            omega
          omega

/-- Full iteration from the first page: `max 1 ⌈K/N⌉` batches whose
concatenation is the sorted listing, a permutation of the registry. -/
theorem paginateAll_batches {α : Type} (key : α → String) (entries : List α)
    (limit fuel : Nat)
    (hnd : (entries.map key).Nodup)
    (hbytes : ∀ a ∈ entries, ∀ ch ∈ (key a).data, ch.toNat < 256)
    (hne : ∀ a ∈ entries, key a ≠ "")
    (hl : 0 < limit) (hf : entries.length + 1 ≤ fuel) :
    (paginateAll key entries limit none fuel).length =
      max 1 ((entries.length + limit - 1) / limit)
    ∧ (paginateAll key entries limit none fuel).flatten = sortedView key entries
    ∧ List.Perm (paginateAll key entries limit none fuel).flatten entries := by
  have hperm : List.Perm (sortedView key entries) entries :=
    List.perm_insertionSort _ _
  have hK : (sortedView key entries).length = entries.length := hperm.length_eq
  have hst := sortedView_strict key entries hnd
  have hb' : ∀ a ∈ sortedView key entries, ∀ ch ∈ (key a).data, ch.toNat < 256 :=
    fun a ha => hbytes a (hperm.mem_iff.mp ha)
  have hn' : ∀ a ∈ sortedView key entries, key a ≠ "" :=
    fun a ha => hne a (hperm.mem_iff.mp ha)
  have h := paginateAll_from key entries limit hl hst hb' hn' fuel none 0
    rfl (by omega) (by omega)
  have hjoin : (paginateAll key entries limit none fuel).flatten =
      sortedView key entries := by
    rw [h.1, List.drop_zero]
  refine ⟨?_, hjoin, ?_⟩
  · rw [h.2, hK]
    have heq : entries.length - 0 + limit - 1 = entries.length + limit - 1 := by
      omega
    rw [heq]
  · rw [hjoin]
    exact hperm

/-- C3 counterexample: two violations of the claim as stated. (i) Over an
empty registry with limit 10 the iteration makes one call and produces one
(empty) batch, but ⌈0/10⌉ = 0. (ii) With tools named `""` and `"a"` and
limit 1, the cursor after the first batch is `base64("") = ""`, which the
next call treats as "no cursor", so the iteration loops on the first item:
with K+1 = 3 calls it yields 3 batches (⌈2/1⌉ = 2) and never reaches
`"a"` — an omission and duplicates. -/
theorem c3_batches_counterexample :
    (toolsListBatches (sampleServer [] [] [] 10 true) 1).length = 1
    ∧ (0 + 10 - 1) / 10 = 0
    ∧ (1 : Nat) ≠ 0
    ∧ ((toolsListBatches (sampleServer ["", "a"] [] [] 1 true) 3).map
        (fun b => b.map Tool.name)) = [[""], [""], [""]]
    ∧ (toolsView (sampleServer ["", "a"] [] [] 1 true)).length = 2
    ∧ (2 + 1 - 1) / 1 = 2
    ∧ (3 : Nat) ≠ 2
    ∧ "a" ∈ (toolsView (sampleServer ["", "a"] [] [] 1 true)).map Tool.name
    ∧ "a" ∉ ((toolsListBatches (sampleServer ["", "a"] [] [] 1 true) 3).flatten.map
        Tool.name) := by
  refine ⟨rfl, rfl, by decide, rfl, rfl, rfl, by decide, by decide, by decide⟩

/-- C3 (amended): for a registry of K entries with distinct, nonempty,
single-byte primary keys and limit N > 0, iterating each list endpoint (K+1
calls always suffice) yields exactly `max 1 ⌈K/N⌉` batches — ⌈K/N⌉ when
K ≥ 1, one empty batch when K = 0 — whose concatenation is the full listing
sorted by primary key and a permutation of the registry (no duplicates, no
omissions); likewise for prompts and resources. -/
theorem c3_pagination_roundtrip (s : ServerState) (fuel1 fuel2 fuel3 : Nat)
    (hndT : ((toolsView s).map Tool.name).Nodup)
    (hbT : ∀ a ∈ toolsView s, ∀ ch ∈ (Tool.name a).data, ch.toNat < 256)
    (hneT : ∀ a ∈ toolsView s, Tool.name a ≠ "")
    (hndP : ((promptsView s).map Prompt.name).Nodup)
    (hbP : ∀ a ∈ promptsView s, ∀ ch ∈ (Prompt.name a).data, ch.toNat < 256)
    (hneP : ∀ a ∈ promptsView s, Prompt.name a ≠ "")
    (hndR : ((resourcesView s).map Resource.uri).Nodup)
    (hbR : ∀ a ∈ resourcesView s, ∀ ch ∈ (Resource.uri a).data, ch.toNat < 256)
    (hneR : ∀ a ∈ resourcesView s, Resource.uri a ≠ "")
    (hl : 0 < s.paginationLimit)
    (hf1 : (toolsView s).length + 1 ≤ fuel1)
    (hf2 : (promptsView s).length + 1 ≤ fuel2)
    (hf3 : (resourcesView s).length + 1 ≤ fuel3) :
    ((toolsListBatches s fuel1).length =
        max 1 (((toolsView s).length + s.paginationLimit - 1) / s.paginationLimit)
      ∧ (toolsListBatches s fuel1).flatten = sortedView Tool.name (toolsView s)
      ∧ List.Perm (toolsListBatches s fuel1).flatten (toolsView s))
    ∧ ((promptsListBatches s fuel2).length =
        max 1 (((promptsView s).length + s.paginationLimit - 1) / s.paginationLimit)
      ∧ (promptsListBatches s fuel2).flatten = sortedView Prompt.name (promptsView s)
      ∧ List.Perm (promptsListBatches s fuel2).flatten (promptsView s))
    ∧ ((resourcesListBatches s fuel3).length =
        max 1 (((resourcesView s).length + s.paginationLimit - 1) / s.paginationLimit)
      ∧ (resourcesListBatches s fuel3).flatten = sortedView Resource.uri (resourcesView s)
      ∧ List.Perm (resourcesListBatches s fuel3).flatten (resourcesView s)) := by
  exact ⟨paginateAll_batches Tool.name (toolsView s) s.paginationLimit fuel1
      hndT hbT hneT hl hf1,
    paginateAll_batches Prompt.name (promptsView s) s.paginationLimit fuel2
      hndP hbP hneP hl hf2,
    paginateAll_batches Resource.uri (resourcesView s) s.paginationLimit fuel3
      hndR hbR hneR hl hf3⟩

/-- C3 witness: a server with three tools, two prompts, two resources and
limit 2. -/
theorem c3_pagination_roundtrip_witness :
    ((toolsListBatches (sampleServer ["a", "b", "c"] ["p", "q"] ["u", "v"] 2 true) 4).length =
        max 1 (((toolsView (sampleServer ["a", "b", "c"] ["p", "q"] ["u", "v"] 2 true)).length + 2 - 1) / 2)
      ∧ (toolsListBatches (sampleServer ["a", "b", "c"] ["p", "q"] ["u", "v"] 2 true) 4).flatten =
          sortedView Tool.name (toolsView (sampleServer ["a", "b", "c"] ["p", "q"] ["u", "v"] 2 true))
      ∧ List.Perm (toolsListBatches (sampleServer ["a", "b", "c"] ["p", "q"] ["u", "v"] 2 true) 4).flatten
          (toolsView (sampleServer ["a", "b", "c"] ["p", "q"] ["u", "v"] 2 true)))
    ∧ ((promptsListBatches (sampleServer ["a", "b", "c"] ["p", "q"] ["u", "v"] 2 true) 3).length =
        max 1 (((promptsView (sampleServer ["a", "b", "c"] ["p", "q"] ["u", "v"] 2 true)).length + 2 - 1) / 2)
      ∧ (promptsListBatches (sampleServer ["a", "b", "c"] ["p", "q"] ["u", "v"] 2 true) 3).flatten =
          sortedView Prompt.name (promptsView (sampleServer ["a", "b", "c"] ["p", "q"] ["u", "v"] 2 true))
      ∧ List.Perm (promptsListBatches (sampleServer ["a", "b", "c"] ["p", "q"] ["u", "v"] 2 true) 3).flatten
          (promptsView (sampleServer ["a", "b", "c"] ["p", "q"] ["u", "v"] 2 true)))
    ∧ ((resourcesListBatches (sampleServer ["a", "b", "c"] ["p", "q"] ["u", "v"] 2 true) 3).length =
        max 1 (((resourcesView (sampleServer ["a", "b", "c"] ["p", "q"] ["u", "v"] 2 true)).length + 2 - 1) / 2)
      ∧ (resourcesListBatches (sampleServer ["a", "b", "c"] ["p", "q"] ["u", "v"] 2 true) 3).flatten =
          sortedView Resource.uri (resourcesView (sampleServer ["a", "b", "c"] ["p", "q"] ["u", "v"] 2 true))
      ∧ List.Perm (resourcesListBatches (sampleServer ["a", "b", "c"] ["p", "q"] ["u", "v"] 2 true) 3).flatten
          (resourcesView (sampleServer ["a", "b", "c"] ["p", "q"] ["u", "v"] 2 true))) :=
  c3_pagination_roundtrip (sampleServer ["a", "b", "c"] ["p", "q"] ["u", "v"] 2 true)
    4 3 3
    (by decide) (by decide) (by decide)
    (by decide) (by decide) (by decide)
    (by decide) (by decide) (by decide)
    (by decide) (by decide) (by decide) (by decide)

/-- C4 counterexample: with the single tool `"a"` and a cursor decoding to
`"z"`, no key is strictly greater than the cursor, yet the call returns
`["a"]` — the scan leaves `startIndex = 0` and the listing restarts, instead
of returning exactly the (empty) set of strictly greater keys. -/
theorem c4_cursor_counterexample :
    ((handleToolsList (sampleServer ["a"] [] [] 10 true)
        (some (JValue.obj [("cursor", JValue.str "eg==")]))).items.map Tool.name) = ["a"]
    ∧ base64Decode "eg==" = some "z"
    ∧ (((sortedView Tool.name (toolsView (sampleServer ["a"] [] [] 10 true))).filter
        (fun t => strLt "z" (Tool.name t))).map Tool.name) = []
    ∧ (["a"] : List String) ≠ [] := by
  refine ⟨rfl, rfl, rfl, by decide⟩

/-- C4 (amended): an absent cursor starts the listing at the first item in
sort order; an empty or undecodable cursor is equivalent to no cursor; a
cursor decoding to `k` returns exactly the entries with key strictly greater
than `k` (in sort order, truncated at the limit) WHEN such an entry exists —
when no key exceeds `k`, the scan leaves the start index at 0 and the
listing restarts from the beginning. Stated for `listPaginated`, which all
three list handlers instantiate. -/
theorem c4_cursor_semantics {α : Type} (key : α → String) (entries : List α)
    (limit : Nat) (params0 params1 params2 params3 : Option JValue)
    (c1 c2 c3 k2 k3 : String)
    (hnd : (entries.map key).Nodup)
    (h0 : parseCursor params0 = none)
    (h1a : parseCursor params1 = some c1) (h1b : ¬ (c1 = ""))
    (h1c : base64Decode c1 = none)
    (h2a : parseCursor params2 = some c2) (h2b : ¬ (c2 = ""))
    (h2c : base64Decode c2 = some k2)
    (h2d : ∃ t ∈ entries, strLt k2 (key t) = true)
    (h3a : parseCursor params3 = some c3) (h3b : ¬ (c3 = ""))
    (h3c : base64Decode c3 = some k3)
    (h3d : ∀ t ∈ entries, strLt k3 (key t) = false) :
    listPaginated key entries limit params0 = listPaginated key entries limit none
    ∧ listPaginated key entries limit params1 = listPaginated key entries limit none
    ∧ (listPaginated key entries limit none).items =
        (sortedView key entries).take
          (if 0 < limit ∧ limit < (sortedView key entries).length then limit
           else (sortedView key entries).length)
    ∧ (listPaginated key entries limit params2).items =
        ((sortedView key entries).filter (fun t => strLt k2 (key t))).take
          (if 0 < limit ∧
              limit < ((sortedView key entries).filter (fun t => strLt k2 (key t))).length
           then limit
           else ((sortedView key entries).filter (fun t => strLt k2 (key t))).length)
    ∧ listPaginated key entries limit params3 = listPaginated key entries limit none := by
  have hst := sortedView_strict key entries hnd
  have hperm : List.Perm (sortedView key entries) entries :=
    List.perm_insertionSort _ _
  refine ⟨?_, ?_, ?_, ?_, ?_⟩
  · rw [listPaginated_eq, listPaginated_eq, h0]
    rfl
  · rw [listPaginated_eq, listPaginated_eq, h1a]
    have hzero : cursorStartIndex key (sortedView key entries) (some c1) = 0 := by
      simp only [cursorStartIndex, if_neg h1b, h1c]
    rw [hzero]
    rfl
  · rw [listPaginated_eq]
    show (pageAt key (sortedView key entries) limit 0).items = _
    by_cases hcase : 0 < limit ∧ limit < (sortedView key entries).length
    · have hc : 0 < limit ∧ 0 + limit < (sortedView key entries).length :=
        ⟨hcase.1, by omega⟩
      simp only [pageAt, if_pos hc, List.drop_zero, if_pos hcase]
    · have hc : ¬ (0 < limit ∧ 0 + limit < (sortedView key entries).length) := by
        intro hcon
        exact hcase ⟨hcon.1, by omega⟩
      simp only [pageAt, if_neg hc, List.drop_zero, if_neg hcase, List.take_length]
  · rw [listPaginated_eq, h2a]
    have h2d' : ∃ t ∈ sortedView key entries, strLt k2 (key t) = true := by
      obtain ⟨t, ht, hlt⟩ := h2d
      exact ⟨t, hperm.mem_iff.mpr ht, hlt⟩
    obtain ⟨i, hi⟩ := findFirstGreater_some_of_exists key k2 _ h2d'
    have hdrop := drop_findFirstGreater key k2 _ i hst hi
    have hilen := findFirstGreater_lt_length key k2 _ i hi
    have hstart : cursorStartIndex key (sortedView key entries) (some c2) = i := by
      simp only [cursorStartIndex, if_neg h2b, h2c, hi, Option.getD_some]
    rw [hstart]
    have hflen : ((sortedView key entries).filter (fun t => strLt k2 (key t))).length =
        (sortedView key entries).length - i := by
      rw [← hdrop, List.length_drop]
    by_cases hcase : 0 < limit ∧ i + limit < (sortedView key entries).length
    · have hc2 : 0 < limit ∧
          limit < ((sortedView key entries).filter (fun t => strLt k2 (key t))).length := by
        refine ⟨hcase.1, ?_⟩
        rw [hflen]
        omega
      simp only [pageAt, if_pos hcase, if_pos hc2]
      rw [hdrop]
    · have hc2 : ¬ (0 < limit ∧
          limit < ((sortedView key entries).filter (fun t => strLt k2 (key t))).length) := by
        intro hcon
        apply hcase
        refine ⟨hcon.1, ?_⟩
        have := hcon.2
        rw [hflen] at this
        omega
      simp only [pageAt, if_neg hcase, if_neg hc2]
      rw [hdrop, List.take_length]
  · rw [listPaginated_eq, listPaginated_eq, h3a]
    have h3d' : ∀ t ∈ sortedView key entries, strLt k3 (key t) = false :=
      fun t ht => h3d t (hperm.mem_iff.mp ht)
    have hnone : findFirstGreater key k3 (sortedView key entries) = none :=
      (findFirstGreater_none_iff key k3 _).mpr h3d'
    have hzero : cursorStartIndex key (sortedView key entries) (some c3) = 0 := by
      simp only [cursorStartIndex, if_neg h3b, h3c, hnone, Option.getD_none]
    rw [hzero]
    rfl

/-- C4 witness: tools `a`, `b`, `c` with limit 1; an absent cursor, the
undecodable cursor `"!"`, the cursor `base64("a")`, and the cursor
`base64("z")` past every key. -/
theorem c4_cursor_semantics_witness :
    listPaginated Tool.name (toolsView (sampleServer ["a", "b", "c"] [] [] 1 true)) 1
        (cursorParams none) =
      listPaginated Tool.name (toolsView (sampleServer ["a", "b", "c"] [] [] 1 true)) 1 none
    ∧ listPaginated Tool.name (toolsView (sampleServer ["a", "b", "c"] [] [] 1 true)) 1
        (cursorParams (some "!")) =
      listPaginated Tool.name (toolsView (sampleServer ["a", "b", "c"] [] [] 1 true)) 1 none
    ∧ (listPaginated Tool.name (toolsView (sampleServer ["a", "b", "c"] [] [] 1 true)) 1
        none).items =
      (sortedView Tool.name (toolsView (sampleServer ["a", "b", "c"] [] [] 1 true))).take
        (if 0 < 1 ∧ 1 < (sortedView Tool.name
            (toolsView (sampleServer ["a", "b", "c"] [] [] 1 true))).length then 1
         else (sortedView Tool.name
            (toolsView (sampleServer ["a", "b", "c"] [] [] 1 true))).length)
    ∧ (listPaginated Tool.name (toolsView (sampleServer ["a", "b", "c"] [] [] 1 true)) 1
        (cursorParams (some "YQ=="))).items =
      ((sortedView Tool.name (toolsView (sampleServer ["a", "b", "c"] [] [] 1 true))).filter
          (fun t => strLt "a" (Tool.name t))).take
        (if 0 < 1 ∧ 1 < ((sortedView Tool.name
              (toolsView (sampleServer ["a", "b", "c"] [] [] 1 true))).filter
            (fun t => strLt "a" (Tool.name t))).length then 1
         else ((sortedView Tool.name
              (toolsView (sampleServer ["a", "b", "c"] [] [] 1 true))).filter
            (fun t => strLt "a" (Tool.name t))).length)
    ∧ listPaginated Tool.name (toolsView (sampleServer ["a", "b", "c"] [] [] 1 true)) 1
        (cursorParams (some "eg==")) =
      listPaginated Tool.name (toolsView (sampleServer ["a", "b", "c"] [] [] 1 true)) 1 none :=
  c4_cursor_semantics Tool.name (toolsView (sampleServer ["a", "b", "c"] [] [] 1 true)) 1
    (cursorParams none) (cursorParams (some "!")) (cursorParams (some "YQ=="))
    (cursorParams (some "eg==")) "!" "YQ==" "eg==" "a" "z"
    (by decide) rfl rfl (by decide) rfl rfl (by decide) rfl (by decide)
    rfl (by decide) rfl (by decide)

end Mcp
